import Mathlib

/-!
Verification of the milli editor core (src/editor.rs, src/document.rs,
src/terminal.rs) against its specification.

Rust `usize` values are modelled as `Nat` together with the saturating
operations the source uses; Rust `String` is modelled as Lean `String`
(character-based, adequate for the ASCII data the verified properties
concern).  Terminal output is modelled as a trace of driver commands.
-/

/-- Maximum value of a 64-bit `usize`. -/
def USIZE_MAX : Nat := 2 ^ 64 - 1

/-- Rust `usize::saturating_add`. -/
def usatAdd (a b : Nat) : Nat := min (a + b) USIZE_MAX

/-- Rust `usize::saturating_sub` (`Nat` subtraction already saturates at 0). -/
def usatSub (a b : Nat) : Nat := a - b

/-- Position struct from editor.rs lines 15-19. -/
structure Position where
  x : Nat
  y : Nat
deriving DecidableEq, Repr

/-- Shared per-axis rule of Editor::scroll: editor.rs lines 133-137 apply it
to (y, offset.y, height), lines 138-142 to (x, offset.x, width). -/
def scrollAxis (c o s : Nat) : Nat :=
  if c < o then c
  else if usatAdd o s ≤ c then usatAdd (usatSub c s) 1
  else o

/-- Editor::scroll (editor.rs lines 124-143) as a pure function from cursor
position, current offset and viewport size to the new offset. -/
def scroll (cursor offset : Position) (width height : Nat) : Position :=
  ⟨scrollAxis cursor.x offset.x width, scrollAxis cursor.y offset.y height⟩

theorem usize_max_eq : USIZE_MAX = 18446744073709551615 := by
  norm_num [USIZE_MAX]

theorem scrollAxis_bounds (c o s : Nat) (hs : 0 < s) (hc : c ≤ USIZE_MAX) :
    scrollAxis c o s ≤ c ∧ c < scrollAxis c o s + s := by
  rw [usize_max_eq] at hc
  unfold scrollAxis usatAdd usatSub
  rw [usize_max_eq]
  split_ifs <;> omega

/-- C1: for every cursor position, offset and viewport size with width > 0 and
height > 0 (cursor coordinates being valid usize values), after Editor::scroll
the invariant offset.x ≤ cursor.x < offset.x + width and
offset.y ≤ cursor.y < offset.y + height holds: the cursor is inside the
visible rectangle. -/
theorem scroll_keeps_cursor_visible (cursor offset : Position) (w h : Nat)
    (hw : 0 < w) (hh : 0 < h)
    (hx : cursor.x ≤ USIZE_MAX) (hy : cursor.y ≤ USIZE_MAX) :
    (scroll cursor offset w h).x ≤ cursor.x ∧
    cursor.x < (scroll cursor offset w h).x + w ∧
    (scroll cursor offset w h).y ≤ cursor.y ∧
    cursor.y < (scroll cursor offset w h).y + h := by
  obtain ⟨h1, h2⟩ := scrollAxis_bounds cursor.x offset.x w hw hx
  obtain ⟨h3, h4⟩ := scrollAxis_bounds cursor.y offset.y h hh hy
  exact ⟨h1, h2, h3, h4⟩

/-- Witness for C1 at cursor (7, 99), offset (0, 0), viewport 10 × 5. -/
theorem scroll_keeps_cursor_visible_witness :
    ((0 : Nat) < 10 ∧ (0 : Nat) < 5 ∧ (7 : Nat) ≤ USIZE_MAX ∧ (99 : Nat) ≤ USIZE_MAX) ∧
    ((scroll ⟨7, 99⟩ ⟨0, 0⟩ 10 5).x ≤ 7 ∧
     7 < (scroll ⟨7, 99⟩ ⟨0, 0⟩ 10 5).x + 10 ∧
     (scroll ⟨7, 99⟩ ⟨0, 0⟩ 10 5).y ≤ 99 ∧
     99 < (scroll ⟨7, 99⟩ ⟨0, 0⟩ 10 5).y + 5) :=
  ⟨⟨by norm_num, by norm_num, by norm_num [USIZE_MAX], by norm_num [USIZE_MAX]⟩,
   scroll_keeps_cursor_visible ⟨7, 99⟩ ⟨0, 0⟩ 10 5 (by norm_num) (by norm_num)
     (by norm_num [USIZE_MAX]) (by norm_num [USIZE_MAX])⟩

/-- C2 counterexample: with offset (0, usize::MAX), viewport 1 × 2 and the
cursor at (0, usize::MAX), the cursor is inside the visible rectangle
(offset.y ≤ cursor.y < offset.y + height), yet Editor::scroll changes the
offset: the saturating bound check `y >= offset.y.saturating_add(height)`
saturates at usize::MAX and misclassifies the cursor as past the bottom. -/
theorem scroll_moves_offset_for_visible_cursor :
    ((0 : Nat) ≤ 0 ∧ (0 : Nat) < 0 + 1 ∧
     USIZE_MAX ≤ USIZE_MAX ∧ USIZE_MAX < USIZE_MAX + 2) ∧
    scroll ⟨0, USIZE_MAX⟩ ⟨0, USIZE_MAX⟩ 1 2 ≠ ⟨0, USIZE_MAX⟩ := by
  refine ⟨⟨le_refl _, by omega, le_refl _, by omega⟩, ?_⟩
  decide

theorem scrollAxis_minimal (c o s : Nat) (hs : 0 < s) (hc : c ≤ USIZE_MAX)
    (hb : o + s ≤ USIZE_MAX) :
    (o ≤ c → c < o + s → scrollAxis c o s = o) ∧
    (c < o → scrollAxis c o s = c) ∧
    (o + s ≤ c → scrollAxis c o s = c - s + 1) := by
  rw [usize_max_eq] at hc hb
  unfold scrollAxis usatAdd usatSub
  rw [usize_max_eq]
  refine ⟨?_, ?_, ?_⟩ <;> intros <;> split_ifs <;> omega

/-- C2 (amended): provided the saturating bound computation does not saturate
(offset.x + width ≤ usize::MAX and offset.y + height ≤ usize::MAX),
Editor::scroll moves the offset minimally and handles the two coordinates
independently: a coordinate whose cursor component is already inside its
visible range stays unchanged — also when the cursor is outside on the other
axis — so a cursor inside the whole rectangle leaves the offset unchanged,
and an outside coordinate moves exactly as specified (cursor coordinate when
past the top/left, cursor coordinate − size + 1 when past the
bottom/right). -/
theorem scroll_minimal_movement (cursor offset : Position) (w h : Nat)
    (hw : 0 < w) (hh : 0 < h)
    (hcx : cursor.x ≤ USIZE_MAX) (hcy : cursor.y ≤ USIZE_MAX)
    (hbx : offset.x + w ≤ USIZE_MAX) (hby : offset.y + h ≤ USIZE_MAX) :
    (offset.x ≤ cursor.x → cursor.x < offset.x + w →
     offset.y ≤ cursor.y → cursor.y < offset.y + h →
     scroll cursor offset w h = offset) ∧
    (offset.x ≤ cursor.x → cursor.x < offset.x + w →
     (scroll cursor offset w h).x = offset.x) ∧
    (offset.y ≤ cursor.y → cursor.y < offset.y + h →
     (scroll cursor offset w h).y = offset.y) ∧
    (cursor.y < offset.y → (scroll cursor offset w h).y = cursor.y) ∧
    (offset.y + h ≤ cursor.y → (scroll cursor offset w h).y = cursor.y - h + 1) ∧
    (cursor.x < offset.x → (scroll cursor offset w h).x = cursor.x) ∧
    (offset.x + w ≤ cursor.x → (scroll cursor offset w h).x = cursor.x - w + 1) := by
  obtain ⟨ax1, ax2, ax3⟩ := scrollAxis_minimal cursor.x offset.x w hw hcx hbx
  obtain ⟨ay1, ay2, ay3⟩ := scrollAxis_minimal cursor.y offset.y h hh hcy hby
  refine ⟨?_, ax1, ay1, ay2, ay3, ax2, ax3⟩
  intro h1 h2 h3 h4
  show (⟨scrollAxis cursor.x offset.x w, scrollAxis cursor.y offset.y h⟩ : Position) = offset
  rw [ax1 h1 h2, ay1 h3 h4]

/-- Witness for C2 (amended) at cursor (5, 40), offset (3, 2), viewport 10 × 10. -/
theorem scroll_minimal_movement_witness :
    ((0 : Nat) < 10 ∧ (0 : Nat) < 10 ∧ (5 : Nat) ≤ USIZE_MAX ∧ (40 : Nat) ≤ USIZE_MAX ∧
     3 + 10 ≤ USIZE_MAX ∧ 2 + 10 ≤ USIZE_MAX) ∧
    (((3 : Nat) ≤ 5 → (5 : Nat) < 3 + 10 → (2 : Nat) ≤ 40 → (40 : Nat) < 2 + 10 →
      scroll ⟨5, 40⟩ ⟨3, 2⟩ 10 10 = ⟨3, 2⟩) ∧
     ((3 : Nat) ≤ 5 → (5 : Nat) < 3 + 10 → (scroll ⟨5, 40⟩ ⟨3, 2⟩ 10 10).x = 3) ∧
     ((2 : Nat) ≤ 40 → (40 : Nat) < 2 + 10 → (scroll ⟨5, 40⟩ ⟨3, 2⟩ 10 10).y = 2) ∧
     ((40 : Nat) < 2 → (scroll ⟨5, 40⟩ ⟨3, 2⟩ 10 10).y = 40) ∧
     (2 + 10 ≤ 40 → (scroll ⟨5, 40⟩ ⟨3, 2⟩ 10 10).y = 40 - 10 + 1) ∧
     ((5 : Nat) < 3 → (scroll ⟨5, 40⟩ ⟨3, 2⟩ 10 10).x = 5) ∧
     (3 + 10 ≤ 5 → (scroll ⟨5, 40⟩ ⟨3, 2⟩ 10 10).x = 5 - 10 + 1)) :=
  ⟨⟨by norm_num, by norm_num, by norm_num [USIZE_MAX], by norm_num [USIZE_MAX],
    by norm_num [USIZE_MAX], by norm_num [USIZE_MAX]⟩,
   scroll_minimal_movement ⟨5, 40⟩ ⟨3, 2⟩ 10 10 (by norm_num) (by norm_num)
     (by norm_num [USIZE_MAX]) (by norm_num [USIZE_MAX])
     (by norm_num [USIZE_MAX]) (by norm_num [USIZE_MAX])⟩

/-- Model of `" ".repeat(n)` (Rust `str::repeat`). -/
def spacesN (n : Nat) : String := ⟨List.replicate n ' '⟩

/-- Model of Rust `String::truncate(n)` / the keep-a-prefix part of
`format!` pipelines: keeps the first `n` characters (the source data is
ASCII, where Rust's byte count and the character count agree). -/
def strTruncate (s : String) (n : Nat) : String := ⟨s.data.take n⟩

/-- Row (src/row.rs is not among the sources).  Modelled from the spec:
section 3 says a Row owns its text content, one line, no embedded newline. -/
structure Row where
  text : String
deriving DecidableEq, Repr

/-- Modelled from the spec: `Row::from(value)` wraps one line of text. -/
def Row.fromStr (s : String) : Row := ⟨s⟩

/-- Modelled from the spec (section 4.2, src/row.rs absent): `render(start, end)`
returns the substring between column `start` (inclusive) and `end` (exclusive),
clamped to the content length; out-of-range windows yield the empty string.
Tab/wide-character expansion is omitted: no verified claim depends on it. -/
def Row.render (r : Row) (startCol endCol : Nat) : String :=
  ⟨(r.text.data.drop startCol).take (endCol - startCol)⟩

/-- Document struct from document.rs lines 4-8. -/
structure Document where
  rows : List Row
  file_name : Option String
deriving DecidableEq, Repr

/-- Rust `#[derive(Default)]` for Document: empty row vector, no file name. -/
def Document.default : Document := ⟨[], none⟩

/-- Document::is_empty (document.rs lines 25-27). -/
def Document.is_empty (d : Document) : Bool := d.rows.isEmpty

/-- Document::len (document.rs lines 29-31). -/
def Document.len (d : Document) : Nat := d.rows.length

/-- Document::row (document.rs lines 33-35): `self.rows.get(index)`. -/
def Document.row (d : Document) (index : Nat) : Option Row := d.rows.get? index

/-- Helper for `str::lines`: strips one trailing carriage return from a
segment that was terminated by a line feed. -/
def stripCRl (l : List Char) : List Char :=
  match l.getLast? with
  | some c => if c = '\r' then l.dropLast else l
  | none => l

/-- Helper for `str::lines`: splits a character list at every line feed;
always returns at least one (possibly empty) segment. -/
def splitNL : List Char → List (List Char)
  | [] => [[]]
  | c :: rest =>
    let r := splitNL rest
    if c = '\n' then [] :: r
    else
      match r with
      | [] => [[c]]
      | h :: t => (c :: h) :: t

/-- Model of Rust `str::lines()`: segments are split at `\n`; every segment
that was terminated by a `\n` has one trailing `\r` stripped; a final empty
segment (trailing newline or empty input) yields no line; a final segment
without terminator is kept verbatim. -/
def rustLines (s : String) : List String :=
  let parts := splitNL s.data
  let body := parts.dropLast.map (fun l => (⟨stripCRl l⟩ : String))
  match parts.getLast? with
  | some [] => body
  | none => body
  | some last => body ++ [(⟨last⟩ : String)]

/-- Document::open (document.rs lines 11-23).  The file system is passed in as
a map from file name to contents (`fs::read_to_string` boundary); a missing
entry is the IO error case. -/
def Document.open (fs : String → Option String) (filename : String) :
    Except Unit Document :=
  match fs filename with
  | none => Except.error ()
  | some file_contents =>
      Except.ok ⟨(rustLines file_contents).map Row.fromStr, some filename⟩

/-- Document-loading part of Editor::default (editor.rs lines 222-239): with
`args.len() > 1`, tries `Document::open(args[1])`; on failure falls back to
`Document::default()` and replaces the initial help status with an error
message naming the file. -/
def editorLoad (fs : String → Option String) (args : List String) :
    Document × String :=
  match args with
  | _prog :: filename :: _rest =>
      match Document.open fs filename with
      | Except.ok doc => (doc, "HELP: Ctrl-Q = quit")
      | Except.error _ => (Document.default, "ERR: Coould not open file: " ++ filename)
  | _ => (Document.default, "HELP: Ctrl-Q = quit")

/-- C4 counterexample: when the startup file cannot be read, Editor::default
falls back to `Document::default()`, which has no rows at all — not a
single-row document containing "Hello world!". -/
theorem fallback_document_is_empty_not_hello_world :
    (editorLoad (fun _ => none) ["milli", "missing.txt"]).1.rows = [] ∧
    (editorLoad (fun _ => none) ["milli", "missing.txt"]).1.len ≠ 1 ∧
    (editorLoad (fun _ => none) ["milli", "missing.txt"]).2 =
      "ERR: Coould not open file: missing.txt" := by
  refine ⟨rfl, by decide, rfl⟩

/-- C4 (amended): when the startup source file is absent or cannot be read,
Editor::default falls back to the derived default document, which is empty
(zero rows), and sets a warning status message naming the failed path
("ERR: Coould not open file: <path>"); loading never aborts (editorLoad is a
total function). -/
theorem editor_load_fallback (fs : String → Option String)
    (prog filename : String) (rest : List String)
    (hf : fs filename = none) :
    editorLoad fs (prog :: filename :: rest) =
      (Document.default, "ERR: Coould not open file: " ++ filename) ∧
    Document.default.rows = [] ∧ Document.default.len = 0 := by
  refine ⟨?_, rfl, rfl⟩
  simp [editorLoad, Document.open, hf]

/-- Witness for C4 (amended) on a file system without "missing.txt". -/
theorem editor_load_fallback_witness :
    (fun (_ : String) => (none : Option String)) "missing.txt" = none ∧
    (editorLoad (fun _ => none) ["milli", "missing.txt"] =
      (Document.default, "ERR: Coould not open file: " ++ "missing.txt") ∧
     Document.default.rows = [] ∧ Document.default.len = 0) :=
  ⟨rfl, editor_load_fallback (fun _ => none) "milli" "missing.txt" [] rfl⟩

/-- C5: Document::open on a readable three-line source yields one Row per
line in source order with line terminators stripped (also the CRLF one):
len() = 3, row(i) is the i-th line for i < 3, row(i) = none (no panic) for
every i ≥ 3, and the file name is recorded; on an unreadable source open
returns the IO error. -/
theorem document_open_three_lines (fs : String → Option String) (name : String)
    (hf : fs name = some "foo\nbar\r\nbaz\n") :
    (∃ d, Document.open fs name = Except.ok d ∧
      d.len = 3 ∧
      d.row 0 = some (Row.fromStr "foo") ∧
      d.row 1 = some (Row.fromStr "bar") ∧
      d.row 2 = some (Row.fromStr "baz") ∧
      d.file_name = some name ∧
      (∀ i, 3 ≤ i → d.row i = none)) ∧
    (∀ (g : String → Option String) (nm : String), g nm = none →
      Document.open g nm = Except.error ()) := by
  constructor
  · refine ⟨⟨[Row.fromStr "foo", Row.fromStr "bar", Row.fromStr "baz"], some name⟩,
      ?_, rfl, rfl, rfl, rfl, rfl, ?_⟩
    · have hlines : rustLines "foo\nbar\r\nbaz\n" = ["foo", "bar", "baz"] := by decide
      simp only [Document.open, hf, hlines]
      rfl
    · intro i hi
      obtain ⟨k, rfl⟩ : ∃ k, i = k + 3 := ⟨i - 3, by omega⟩
      rfl
  · intro g nm hg
    rw [Document.open, hg]

/-- Witness for C5 on the concrete file system holding one three-line file. -/
theorem document_open_three_lines_witness :
    (fun n => if n = "f.txt" then some "foo\nbar\r\nbaz\n" else none) "f.txt" =
      some "foo\nbar\r\nbaz\n" ∧
    ((∃ d, Document.open
        (fun n => if n = "f.txt" then some "foo\nbar\r\nbaz\n" else none) "f.txt" =
          Except.ok d ∧
      d.len = 3 ∧
      d.row 0 = some (Row.fromStr "foo") ∧
      d.row 1 = some (Row.fromStr "bar") ∧
      d.row 2 = some (Row.fromStr "baz") ∧
      d.file_name = some "f.txt" ∧
      (∀ i, 3 ≤ i → d.row i = none)) ∧
    (∀ (g : String → Option String) (nm : String), g nm = none →
      Document.open g nm = Except.error ())) :=
  ⟨rfl, document_open_three_lines
    (fun n => if n = "f.txt" then some "foo\nbar\r\nbaz\n" else none) "f.txt" rfl⟩

/-- Left file-name segment of the status bar (editor.rs lines 182-186):
the file name truncated to 20 characters, or the placeholder. -/
def statusFileName : Option String → String
  | some name => strTruncate name 20
  | none => "[No Name]"

/-- Editor::draw_status_bar string construction (editor.rs lines 179-201):
builds the status text, the line indicator, pads when `width > len`, appends
the indicator and truncates to the viewport width.  Note the source pads with
`width - status.len()` spaces (not `width - len`). -/
def statusBarLine (file_name : Option String) (docLen cursorY width : Nat) :
    String :=
  let status := statusFileName file_name ++ " - " ++ toString docLen ++ " lines"
  let line_indicator := toString (usatAdd cursorY 1) ++ "/" ++ toString docLen
  let len := status.length + line_indicator.length
  let status := if len < width then status ++ spacesN (width - status.length) else status
  strTruncate (status ++ line_indicator) width

/-- C3 (code bug): at viewport width 30 with no file loaded, an empty document
and the cursor on line 0, the status bar line consists of the left segment
padded with spaces to the full width, and the line indicator "1/0" has been
truncated off entirely instead of ending at the right edge: the source pads
with `width - status.len()` spaces where the computed
`len = status.len() + line_indicator.len()` was clearly intended, so the right
segment never fits whenever `width > len`.  The total length is still exactly
the viewport width. -/
theorem status_bar_drops_line_indicator :
    statusBarLine none 0 0 30 = "[No Name] - 0 lines" ++ spacesN 11 ∧
    (statusBarLine none 0 0 30).length = 30 ∧
    statusBarLine none 0 0 30 ≠ "[No Name] - 0 lines        1/0" := by
  refine ⟨by decide, by decide, by decide⟩

/-- C10: the status bar's left field shows at most the first 20 characters of
the file name: it always equals the 20-character truncation, names of at most
20 characters are shown in full, longer names are cut to exactly 20, and with
no file name the placeholder "[No Name]" is shown. -/
theorem status_file_name_truncation (name : String) :
    statusFileName none = "[No Name]" ∧
    statusFileName (some name) = strTruncate name 20 ∧
    (name.length ≤ 20 → statusFileName (some name) = name) ∧
    (20 < name.length → (statusFileName (some name)).length = 20) := by
  refine ⟨rfl, rfl, ?_, ?_⟩
  · intro hle
    show (⟨name.data.take 20⟩ : String) = name
    rw [List.take_of_length_le hle]
  · intro hgt
    show (name.data.take 20).length = 20
    have hd : name.length = name.data.length := rfl
    rw [List.length_take]
    omega

/-- Witness for C10 with a 26-character and an 8-character file name. -/
theorem status_file_name_truncation_witness :
    ("abcdefghijklmnopqrstuvwxyz".length ≤ 20 →
      statusFileName (some "abcdefghijklmnopqrstuvwxyz") = "abcdefghijklmnopqrstuvwxyz") ∧
    (20 < "abcdefghijklmnopqrstuvwxyz".length →
      (statusFileName (some "abcdefghijklmnopqrstuvwxyz")).length = 20) ∧
    statusFileName (some "abcdefghijklmnopqrstuvwxyz") = strTruncate "abcdefghijklmnopqrstuvwxyz" 20 ∧
    statusFileName none = "[No Name]" ∧
    statusFileName (some "file.txt") = "file.txt" :=
  ⟨(status_file_name_truncation "abcdefghijklmnopqrstuvwxyz").2.2.1,
   (status_file_name_truncation "abcdefghijklmnopqrstuvwxyz").2.2.2,
   (status_file_name_truncation "abcdefghijklmnopqrstuvwxyz").2.1,
   (status_file_name_truncation "x").1,
   (status_file_name_truncation "file.txt").2.2.1 (by decide)⟩

/-- Terminal driver primitives (src/terminal.rs), as trace commands.
`writeLn` is Editor::write_screen (a `writeln!` to the alternate screen),
`printStr` is a bare `print!` and `printLn` a `println!` to stdout. -/
inductive TermCmd where
  | cursorHide : TermCmd
  | cursorShow : TermCmd
  | clearScreen : TermCmd
  | clearLine : TermCmd
  | cursorGoto (x y : Nat) : TermCmd
  | writeLn (s : String) : TermCmd
  | printStr (s : String) : TermCmd
  | printLn (s : String) : TermCmd
  | setBg (r g b : Nat) : TermCmd
  | resetBg : TermCmd
  | resetFg : TermCmd
  | flush : TermCmd
deriving DecidableEq, Repr

/-- Terminal::cursor_position (terminal.rs lines 47-54): both coordinates are
incremented with `saturating_add(1)` and cast `as u16` (truncation mod 2^16)
before the goto escape sequence is emitted. -/
def cursorGotoOf (p : Position) : TermCmd :=
  TermCmd.cursorGoto (usatAdd p.x 1 % 65536) (usatAdd p.y 1 % 65536)

/-- StatusMessage (editor.rs lines 27-30); the creation instant is modelled
as nanoseconds of a monotone clock. -/
structure StatusMessage where
  text : String
  time : Nat
deriving DecidableEq, Repr

/-- Editor state (editor.rs lines 43-51); the terminal size is inlined as
width/height, and the IO handles carry no state relevant to the claims. -/
structure EditorState where
  should_quit : Bool
  width : Nat
  height : Nat
  cursor_position : Position
  document : Document
  offset : Position
  status_message : StatusMessage
deriving DecidableEq, Repr

/-- Editor::render_welcome (editor.rs lines 145-154): message text, padding
computed from the untruncated length, truncation to the viewport width, one
leading tilde. `version` stands for the CARGO_PKG_VERSION compile-time
constant (the manifest is not among the sources). -/
def welcomeString (version : String) (width : Nat) : String :=
  let welcome_msg := "Milli Editor -- version " ++ version
  let len := welcome_msg.length
  let padding := (width - len) / 2
  let spaces := spacesN (padding - 1)
  "~" ++ spaces ++ strTruncate welcome_msg width ++ "\r"

/-- Per-terminal-row string chosen by Editor::draw_rows (editor.rs lines
164-177): a windowed document row (draw_row, lines 156-162), the welcome
banner on row height / 3 of an empty document, or a bare tilde. -/
def rowString (version : String) (st : EditorState) (terminal_row : Nat) :
    String :=
  match st.document.row (terminal_row + st.offset.y) with
  | some row => row.render st.offset.x (st.width + st.offset.x) ++ "\r"
  | none =>
      if st.document.is_empty && (terminal_row == st.height / 3) then
        welcomeString version st.width
      else "~\r"

/-- Editor::draw_rows (editor.rs lines 164-177): for each terminal row, clear
the current line, then write the chosen row string. -/
def drawRowsCmds (version : String) (st : EditorState) : List TermCmd :=
  ((List.range st.height).map
    (fun terminal_row =>
      [TermCmd.clearLine, TermCmd.writeLn (rowString version st terminal_row)])).flatten

/-- Editor::draw_status_bar (editor.rs lines 179-207): the source calls
set_bg_color twice (once with the background and once with the foreground
RGB constant) and never set_fg_color, then writes the status line, then
resets background and foreground. -/
def drawStatusBarCmds (st : EditorState) : List TermCmd :=
  [TermCmd.setBg 239 239 239,
   TermCmd.setBg 63 63 63,
   TermCmd.writeLn (statusBarLine st.document.file_name st.document.len
     st.cursor_position.y st.width),
   TermCmd.resetBg,
   TermCmd.resetFg]

/-- Editor::draw_message_bar (editor.rs lines 209-217): clear the line; print
the message truncated to the viewport width only when its age
(`Instant::now() - message.time`) is under Duration::new(5, 0), i.e. under
5 × 10⁹ nanoseconds. -/
def drawMessageBarCmds (message : StatusMessage) (width now : Nat) :
    List TermCmd :=
  TermCmd.clearLine ::
  (if now - message.time < 5000000000 then
    [TermCmd.printStr (strTruncate message.text width)]
   else [])

/-- Editor::refresh_screen (editor.rs lines 81-101): hide cursor, clear the
whole screen, home the cursor; then either the goodbye frame (second whole
clear and the goodbye line) or rows, status bar, message bar and the
viewport-relative cursor reposition; finally show cursor and flush. -/
def refreshScreenCmds (version : String) (st : EditorState) (now : Nat) :
    List TermCmd :=
  [TermCmd.cursorHide, TermCmd.clearScreen, cursorGotoOf ⟨0, 0⟩] ++
  (if st.should_quit then
    [TermCmd.clearScreen, TermCmd.printLn "Goodbye.\r"]
   else
    drawRowsCmds version st ++
    drawStatusBarCmds st ++
    drawMessageBarCmds st.status_message st.width now ++
    [cursorGotoOf ⟨usatSub st.cursor_position.x st.offset.x,
                   usatSub st.cursor_position.y st.offset.y⟩]) ++
  [TermCmd.cursorShow, TermCmd.flush]

/-- Editor state right after startup without a readable file argument, on a
80 × 24 viewport: not quitting, empty default document, cursor and offset at
the origin, the initial help status message. -/
def initSt : EditorState :=
  { should_quit := false
    width := 80
    height := 24
    cursor_position := ⟨0, 0⟩
    document := Document.default
    offset := ⟨0, 0⟩
    status_message := ⟨"HELP: Ctrl-Q = quit", 0⟩ }

/-- C6 counterexample: for the startup state (empty document, 80 × 24
viewport), terminal row 7 shows a bare tilde while the welcome banner is
rendered on terminal row 8 = 24 / 3, not on row 7 as claimed. -/
theorem welcome_banner_not_on_row_seven :
    rowString "0.1.0" initSt 7 = "~\r" ∧
    rowString "0.1.0" initSt 8 = welcomeString "0.1.0" 80 ∧
    welcomeString "0.1.0" 80 ≠ "~\r" := by
  refine ⟨rfl, rfl, by decide⟩

/-- C6 (amended): for every version string and every state with an empty
document in an 80 × 24 viewport, draw_rows shows the welcome banner exactly
on terminal row 8 (height / 3 = 24 / 3), built by render_welcome (truncated
to the viewport width, left-padded with a tilde and spaces so the text is
horizontally centered), and every other visible row shows a bare tilde. -/
theorem welcome_banner_row (version : String) (st : EditorState)
    (hd : st.document.rows = []) (hw : st.width = 80) (hh : st.height = 24) :
    ∀ i, i < 24 → rowString version st i =
      if i = 8 then welcomeString version 80 else "~\r" := by
  intro i hi
  have hrow : st.document.row (i + st.offset.y) = none := by
    simp [Document.row, hd]
  have hemp : st.document.is_empty = true := by
    simp [Document.is_empty, hd]
  have h3 : (24 : Nat) / 3 = 8 := by norm_num
  rw [rowString]
  rw [hrow]
  simp only [hemp, hw, hh, h3, Bool.true_and]
  by_cases h8 : i = 8
  · simp [h8]
  · simp [h8]

/-- Witness for C6 (amended) at version "0.1.0" and the startup state. -/
theorem welcome_banner_row_witness :
    (initSt.document.rows = [] ∧ initSt.width = 80 ∧ initSt.height = 24 ∧ 7 < 24) ∧
    rowString "0.1.0" initSt 7 = (if 7 = 8 then welcomeString "0.1.0" 80 else "~\r") :=
  ⟨⟨rfl, rfl, rfl, by norm_num⟩,
   welcome_banner_row "0.1.0" initSt rfl rfl rfl 7 (by norm_num)⟩

theorem strTruncate_length_le (s : String) (n : Nat) :
    (strTruncate s n).length ≤ n := by
  show (s.data.take n).length ≤ n
  rw [List.length_take]
  omega

/-- C9: on every frame the message bar first clears its line, something is
printed if and only if the age of the status message at render time
(now − creation time) is strictly below 5 seconds (5 × 10⁹ ns), and whatever
is printed is exactly the message text truncated to the viewport width (in
particular at most `width` characters); when the age is 5 seconds or more the
already-cleared line stays blank. -/
theorem message_bar_age_gate (message : StatusMessage) (width now : Nat) :
    (drawMessageBarCmds message width now).head? = some TermCmd.clearLine ∧
    ((∃ s, TermCmd.printStr s ∈ drawMessageBarCmds message width now) ↔
      now - message.time < 5000000000) ∧
    (∀ s, TermCmd.printStr s ∈ drawMessageBarCmds message width now →
      s = strTruncate message.text width ∧ s.length ≤ width) := by
  unfold drawMessageBarCmds
  by_cases hfresh : now - message.time < 5000000000
  · rw [if_pos hfresh]
    refine ⟨rfl, ⟨fun _ => hfresh,
      fun _ => ⟨strTruncate message.text width, by simp⟩⟩, ?_⟩
    intro s hs
    simp only [List.mem_cons, List.not_mem_nil, or_false] at hs
    rcases hs with h | h
    · cases h
    · cases h
      exact ⟨rfl, strTruncate_length_le _ _⟩
  · rw [if_neg hfresh]
    refine ⟨rfl, ?_, ?_⟩
    · constructor
      · rintro ⟨s, hs⟩
        simp at hs
      · intro h
        exact absurd h hfresh
    · intro s hs
      simp at hs

/-- Witness for C9 at a fresh message ("hi", created at 0, rendered at 0)
in an 80-column viewport. -/
theorem message_bar_age_gate_witness :
    (drawMessageBarCmds ⟨"hi", 0⟩ 80 0).head? = some TermCmd.clearLine ∧
    ((∃ s, TermCmd.printStr s ∈ drawMessageBarCmds ⟨"hi", 0⟩ 80 0) ↔
      0 - (0 : Nat) < 5000000000) ∧
    (∀ s, TermCmd.printStr s ∈ drawMessageBarCmds ⟨"hi", 0⟩ 80 0 →
      s = strTruncate "hi" 80 ∧ s.length ≤ 80) :=
  message_bar_age_gate ⟨"hi", 0⟩ 80 0

/-- Navigation intents of the input loop (spec section 4.5). -/
inductive NavKey where
  | up : NavKey
  | down : NavKey
  | left : NavKey
  | right : NavKey
  | pageUp : NavKey
  | pageDown : NavKey
  | home : NavKey
  | endKey : NavKey
deriving DecidableEq, Repr

/-- Key events the input loop distinguishes: a key with a navigation
function, Ctrl-Q, or anything else. -/
inductive Key where
  | ctrlQ : Key
  | nav (k : NavKey) : Key
  | other : Key
deriving DecidableEq, Repr

/-- Modelled from the spec (section 4.5; the Navigable impl is in src/main.rs,
which is not among the sources): vertical keys adjust y by one, page keys by a
full viewport height, horizontal keys adjust x by one, all saturating at 0;
Home sets x to 0; End sets x to the length of the current row, or 0 when the
row is absent. -/
def navMove (st : EditorState) (k : NavKey) (p : Position) : Position :=
  match k with
  | NavKey.up => ⟨p.x, usatSub p.y 1⟩
  | NavKey.down => ⟨p.x, usatAdd p.y 1⟩
  | NavKey.left => ⟨usatSub p.x 1, p.y⟩
  | NavKey.right => ⟨usatAdd p.x 1, p.y⟩
  | NavKey.pageUp => ⟨p.x, usatSub p.y st.height⟩
  | NavKey.pageDown => ⟨p.x, usatAdd p.y st.height⟩
  | NavKey.home => ⟨0, p.y⟩
  | NavKey.endKey =>
      ⟨(match st.document.row p.y with
        | some r => r.text.length
        | none => 0), p.y⟩

/-- Editor::process_keypresses (editor.rs lines 108-122), given the key that
the blocking read returned: a navigation key moves the cursor and rescrolls,
Ctrl-Q sets should_quit, any other key changes nothing. -/
def processKey (st : EditorState) (k : Key) : EditorState :=
  match k with
  | Key.nav n =>
      let c := navMove st n st.cursor_position
      { st with cursor_position := c,
                offset := scroll c st.offset st.width st.height }
  | Key.ctrlQ => { st with should_quit := true }
  | Key.other => st

/-- Observable events of the run loop: one rendered frame (with its terminal
command trace) or one blocking key read. -/
inductive Ev where
  | render (cmds : List TermCmd) : Ev
  | readKey (k : Key) : Ev
deriving DecidableEq, Repr

/-- Editor::run (editor.rs lines 57-72): every iteration renders a frame,
breaks if should_quit, otherwise blocks for one key and processes it.  The
trace is driven by the finite list of keys available on stdin and stops where
the program would block forever waiting for input. -/
def runTrace (version : String) (now : Nat) : EditorState → List Key → List Ev
  | st, keys =>
    Ev.render (refreshScreenCmds version st now) ::
    (if st.should_quit then []
     else
       match keys with
       | [] => []
       | k :: rest => Ev.readKey k :: runTrace version now (processKey st k) rest)

/-- Recognizer for traces of the shape frame, (read, frame)*: the trace
starts with a rendered frame, frames and key reads alternate strictly, and
the trace ends with a rendered frame. -/
def goodTrace : List Ev → Bool
  | [Ev.render _] => true
  | Ev.render _ :: Ev.readKey _ :: rest => goodTrace rest
  | _ => false

theorem runTrace_goodTrace (version : String) (now : Nat) (keys : List Key) :
    ∀ st : EditorState, goodTrace (runTrace version now st keys) = true := by
  induction keys with
  | nil =>
      intro st
      rw [runTrace]
      cases hq : st.should_quit <;> simp [goodTrace]
  | cons k rest ih =>
      intro st
      rw [runTrace]
      cases hq : st.should_quit
      · simpa [goodTrace] using ih (processKey st k)
      · simp [goodTrace]

/-- C8: in every execution of the run loop started in a non-quitting state,
the event trace has the shape frame, (read, frame)*: a render occurs before
every input read and the trace ends with a render.  Once should_quit is true
exactly one more frame is rendered and the loop exits; in particular after
reading Ctrl-Q the remaining trace is exactly one goodbye frame, whose
command trace prints the "Goodbye." line. -/
theorem run_loop_render_before_read (version : String) (now : Nat)
    (st : EditorState) (keys : List Key) (hq : st.should_quit = false) :
    goodTrace (runTrace version now st keys) = true ∧
    runTrace version now { st with should_quit := true } keys =
      [Ev.render (refreshScreenCmds version { st with should_quit := true } now)] ∧
    runTrace version now st (Key.ctrlQ :: keys) =
      [Ev.render (refreshScreenCmds version st now),
       Ev.readKey Key.ctrlQ,
       Ev.render (refreshScreenCmds version { st with should_quit := true } now)] ∧
    TermCmd.printLn "Goodbye.\r" ∈
      refreshScreenCmds version { st with should_quit := true } now := by
  refine ⟨runTrace_goodTrace version now keys st, ?_, ?_, ?_⟩
  · rw [runTrace.eq_def]
    simp
  · rw [runTrace.eq_def]
    simp only [hq, Bool.false_eq_true, if_false]
    rw [runTrace.eq_def]
    simp [processKey]
  · simp [refreshScreenCmds]

/-- Witness for C8 at the startup state with no further pending keys. -/
theorem run_loop_render_before_read_witness :
    initSt.should_quit = false ∧
    (goodTrace (runTrace "0.1.0" 0 initSt []) = true ∧
     runTrace "0.1.0" 0 { initSt with should_quit := true } [] =
       [Ev.render (refreshScreenCmds "0.1.0" { initSt with should_quit := true } 0)] ∧
     runTrace "0.1.0" 0 initSt [Key.ctrlQ] =
       [Ev.render (refreshScreenCmds "0.1.0" initSt 0),
        Ev.readKey Key.ctrlQ,
        Ev.render (refreshScreenCmds "0.1.0" { initSt with should_quit := true } 0)] ∧
     TermCmd.printLn "Goodbye.\r" ∈
       refreshScreenCmds "0.1.0" { initSt with should_quit := true } 0) :=
  ⟨rfl, run_loop_render_before_read "0.1.0" 0 initSt [] rfl⟩

/-- Recognizer for the whole-screen clear primitive. -/
def isClearScreen : TermCmd → Bool
  | TermCmd.clearScreen => true
  | _ => false

/-- Recognizer for the single-line clear primitive. -/
def isClearLine : TermCmd → Bool
  | TermCmd.clearLine => true
  | _ => false

/-- Number of whole-screen clears in a command trace. -/
def countClears (cmds : List TermCmd) : Nat := cmds.countP isClearScreen

/-- Number of single-line clears in a command trace. -/
def countLineClears (cmds : List TermCmd) : Nat := cmds.countP isClearLine

/-- Whole-screen clears of one run-loop event. -/
def evClears : Ev → Nat
  | Ev.render cmds => countClears cmds
  | Ev.readKey _ => 0

/-- Whole-screen clears over an entire run-loop trace. -/
def traceClears (t : List Ev) : Nat := (t.map evClears).sum

theorem runTrace_eq (version : String) (now : Nat) (st : EditorState)
    (keys : List Key) :
    runTrace version now st keys =
      Ev.render (refreshScreenCmds version st now) ::
      (if st.should_quit then []
       else
         match keys with
         | [] => []
         | k :: rest => Ev.readKey k :: runTrace version now (processKey st k) rest) := by
  rw [runTrace.eq_def]

theorem drawRows_clear_counts (version : String) (st : EditorState) :
    countClears (drawRowsCmds version st) = 0 ∧
    countLineClears (drawRowsCmds version st) = st.height := by
  unfold countClears countLineClears drawRowsCmds
  have hgen : ∀ l : List Nat,
      ((l.map (fun terminal_row =>
        [TermCmd.clearLine,
         TermCmd.writeLn (rowString version st terminal_row)])).flatten).countP
          isClearScreen = 0 ∧
      ((l.map (fun terminal_row =>
        [TermCmd.clearLine,
         TermCmd.writeLn (rowString version st terminal_row)])).flatten).countP
          isClearLine = l.length := by
    intro l
    induction l with
    | nil => exact ⟨rfl, rfl⟩
    | cons a t ih =>
        simp [List.countP_cons, ih.1, ih.2, isClearScreen, isClearLine]
  have h := hgen (List.range st.height)
  rw [h.1, h.2, List.length_range]
  exact ⟨rfl, rfl⟩

theorem msgbar_clear_counts (m : StatusMessage) (w now : Nat) :
    countClears (drawMessageBarCmds m w now) = 0 ∧
    countLineClears (drawMessageBarCmds m w now) = 1 := by
  unfold countClears countLineClears drawMessageBarCmds
  by_cases hfresh : now - m.time < 5000000000 <;>
    simp [hfresh, List.countP_cons, isClearScreen, isClearLine]

theorem refresh_clear_counts (version : String) (st : EditorState) (now : Nat) :
    countClears (refreshScreenCmds version st now) =
      (if st.should_quit then 2 else 1) ∧
    countLineClears (refreshScreenCmds version st now) =
      (if st.should_quit then 0 else st.height + 1) := by
  obtain ⟨hr1, hr2⟩ := drawRows_clear_counts version st
  obtain ⟨hm1, hm2⟩ := msgbar_clear_counts st.status_message st.width now
  simp only [countClears, countLineClears] at hr1 hr2 hm1 hm2 ⊢
  unfold refreshScreenCmds drawStatusBarCmds
  cases hq : st.should_quit <;>
    simp [List.countP_append, List.countP_cons, isClearScreen, isClearLine,
      cursorGotoOf, hr1, hr2, hm1, hm2]

/-- C7 (amended): every frame of the loop performs one whole-screen clear and
the quit frame performs two; a running frame additionally clears exactly
height + 1 individual lines (each document row plus the message bar), the
quit frame none.  Consequently pressing Ctrl-Q immediately after startup
yields a run trace with three whole-screen clears in total: one for the
startup frame and two more for the goodbye frame. -/
theorem clear_screen_every_frame (version : String) (st : EditorState)
    (now : Nat) :
    countClears (refreshScreenCmds version st now) =
      (if st.should_quit then 2 else 1) ∧
    countLineClears (refreshScreenCmds version st now) =
      (if st.should_quit then 0 else st.height + 1) ∧
    traceClears (runTrace version now st [Key.ctrlQ]) =
      (if st.should_quit then 2 else 3) := by
  obtain ⟨h1, h2⟩ := refresh_clear_counts version st now
  refine ⟨h1, h2, ?_⟩
  cases hq : st.should_quit
  · have hquit := (refresh_clear_counts version { st with should_quit := true } now).1
    simp only [show ({ st with should_quit := true } : EditorState).should_quit = true
      from rfl, if_true] at hquit
    rw [runTrace_eq]
    simp only [hq, Bool.false_eq_true, if_false]
    rw [show processKey st Key.ctrlQ = { st with should_quit := true } from rfl]
    rw [runTrace_eq]
    simp only [show ({ st with should_quit := true } : EditorState).should_quit = true
      from rfl, if_true]
    simp [traceClears, evClears, h1, hq, hquit]
  · rw [runTrace_eq]
    simp only [hq, if_true]
    simp [traceClears, evClears, h1, hq]

/-- C7 counterexample: starting from the startup state, pressing Ctrl-Q
produces a trace with three whole-screen clears — the startup frame already
performs one (refresh_screen clears the whole screen on every frame, not only
on the initial and quit frames), and the goodbye frame performs two — whereas
the claim predicts one initial clear plus exactly one additional clear. -/
theorem ctrl_q_trace_has_three_clears :
    traceClears (runTrace "0.1.0" 0 initSt [Key.ctrlQ]) = 3 ∧
    countClears (refreshScreenCmds "0.1.0" initSt 0) = 1 ∧
    countClears (refreshScreenCmds "0.1.0" { initSt with should_quit := true } 0) = 2 := by
  refine ⟨by decide, by decide, by decide⟩
